import Mathlib

/-!
Verification of the NotionUploader ingestion core against its specification.

The Python sources are shallowly embedded: floats become exact rationals
(reals where the code uses the transcendental `exp`), `Optional[float]`
becomes `Option ℚ`, dictionaries become association lists, and the stateful
HTTP clients become explicit state-passing functions whose environments
(cached tokens, network responses) are arguments.
-/

/-- Python `round` to an integer, rounding halves to the nearest even
integer (banker's rounding), as done by the CPython `round` builtin. -/
def roundHalfEven (q : ℚ) : ℤ :=
  let f : ℤ := ⌊q⌋
  let r : ℚ := q - (f : ℚ)
  if r < 1/2 then f
  else if 1/2 < r then f + 1
  else if f % 2 = 0 then f else f + 1

/-- Python `round(x, 2)` on the embedded rationals. -/
def pyRound2 (q : ℚ) : ℚ := (roundHalfEven (100 * q) : ℚ) / 100

/-- Python `round(x, 1)` on the embedded rationals. -/
def pyRound1 (q : ℚ) : ℚ := (roundHalfEven (10 * q) : ℚ) / 10

/-- Python `a or b` on two optional numbers: the left value when it is
present and truthy (nonzero), otherwise the right one. -/
def pyOrOpt (a b : Option ℚ) : Option ℚ :=
  match a with
  | some x => if x ≠ 0 then some x else b
  | none => b

/-- `src/domain/body_metrics/hr.py`, helper `average_hr` inside
`hr_drift_from_splits`: average of the valid (present, strictly positive)
heart rates of a list of splits, `none` when no valid sample exists.
A split is represented by its `average_heartrate` entry; `none` covers both
a missing key and a value that fails `float` conversion. -/
def averageHr (values : List (Option ℚ)) : Option ℚ :=
  let hrs := (values.filterMap id).filter (fun h => decide (0 < h))
  if hrs = [] then none else some (hrs.sum / hrs.length)

/-- `src/domain/body_metrics/hr.py`, `hr_drift_from_splits`. -/
def hr_drift_from_splits (splits : List (Option ℚ)) : ℚ :=
  if splits = [] then 0
  else
    let half := splits.length / 2
    if half = 0 then 0
    else
      match averageHr (splits.take half), averageHr (splits.drop half) with
      | some first_avg, some second_avg =>
          if first_avg = 0 then 0
          else (second_avg - first_avg) / first_avg * 100
      | _, _ => 0

/-- Transcription of the spec's description of `hr_drift` (claim C8):
split the ordered list at `⌊n/2⌋` (the extra element of an odd list in the
second half), average the valid samples of each half, and return
`(second − first) / first × 100`, with 0 when either half has no valid
sample or the first average is 0. -/
def hrDriftSpec (splits : List (Option ℚ)) : ℚ :=
  let half := splits.length / 2
  match averageHr (splits.take half), averageHr (splits.drop half) with
  | some first_avg, some second_avg =>
      if first_avg = 0 then 0 else (second_avg - first_avg) / first_avg * 100
  | _, _ => 0

/-- `src/domain/body_metrics/hr.py`, `estimate_if_tss_from_hr`.
All six keyword arguments are embedded in source order; `kcal` is unused by
the source (`del kcal`). -/
def estimate_if_tss_from_hr (hr_avg_session hr_max_session dur_s
    hr_max_athlete hr_rest_athlete kcal : Option ℚ) : Option (ℚ × ℚ) :=
  -- `del kcal`
  let _ := kcal
  match hr_avg_session, hr_max_session, dur_s, hr_max_athlete with
  | some avg, some maxs, some dur, some maxa =>
    if dur ≤ 0 then none
    else if avg ≤ 0 ∨ maxs ≤ 0 ∨ maxa ≤ 0 then none
    else
      let rest_hr : ℚ :=
        match hr_rest_athlete with
        | some r => if 0 < r then r else 66
        | none => 66
      let lthr_guess := (90/100 : ℚ) * maxa
      let lthr_candidate :=
        min lthr_guess (max ((85/100 : ℚ) * maxa) ((98/100 : ℚ) * maxs))
      let lthr := if lthr_candidate ≤ rest_hr + 10 then lthr_guess else lthr_candidate
      let hr_range := max 1 (maxa - rest_hr)
      let thr_range := max 1 (lthr - rest_hr)
      let if_est :=
        if avg ≤ rest_hr + 5 then (30/100 : ℚ)
        else
          let if_base := (avg - rest_hr) / thr_range
          let supra := max 0 (maxs - lthr)
          let supra_cap := max 1 (maxa - lthr)
          let bump := if supra_cap ≠ 0 then (8/100 : ℚ) * (supra / supra_cap) else 0
          max (30/100) (min (135/100) (if_base + bump))
      let if_est := if thr_range ≤ 1 ∧ hr_range ≤ 1 then (30/100 : ℚ) else if_est
      let tss := dur / 3600 * if_est * 100
      some (pyRound2 if_est, pyRound1 tss)
  | _, _, _, _ => none

/-- The rest heart rate actually used by `estimate_if_tss_from_hr`:
the supplied value when present and positive, else the default 66. -/
def restHrOf (hr_rest_athlete : Option ℚ) : ℚ :=
  match hr_rest_athlete with
  | some r => if 0 < r then r else 66
  | none => 66

/-- The LTHR estimate shared by the spec's wording and the code:
`min(0.90·maxa, max(0.85·maxa, 0.98·maxs))`, falling back to `0.90·maxa`
when the candidate does not clear `rest + 10`. -/
def lthrOf (maxs maxa rest : ℚ) : ℚ :=
  let lthr_guess := (90/100 : ℚ) * maxa
  let cand := min lthr_guess (max ((85/100 : ℚ) * maxa) ((98/100 : ℚ) * maxs))
  if cand ≤ rest + 10 then lthr_guess else cand

/-- Transcription of claim C6's intensity-factor formula exactly as worded:
`IF = (avg − rest)/(LTHR − rest) + 0.08·(maxs − LTHR)/(maxa − LTHR)`,
clamped to `[0.30, 1.35]`, with sessions at `avg ≤ rest + 5` forced to 0.30. -/
def ifClaimC6 (avg maxs maxa rest : ℚ) : ℚ :=
  let lthr := lthrOf maxs maxa rest
  if avg ≤ rest + 5 then 30/100
  else
    max (30/100) (min (135/100)
      ((avg - rest) / (lthr - rest) + (8/100) * ((maxs - lthr) / (maxa - lthr))))

/-- The intensity factor the code actually computes on valid inputs: claim
C6's formula with `max(1, ·)` guards on both denominators, the supra bump
floored at 0, and degenerate profiles (`thr_range ≤ 1` and `hr_range ≤ 1`)
forced to 0.30. -/
def ifAmendedC6 (avg maxs maxa rest : ℚ) : ℚ :=
  let lthr := lthrOf maxs maxa rest
  let hr_range := max 1 (maxa - rest)
  let thr_range := max 1 (lthr - rest)
  let base :=
    if avg ≤ rest + 5 then (30/100 : ℚ)
    else
      max (30/100) (min (135/100)
        ((avg - rest) / thr_range
          + (8/100) * (max 0 (maxs - lthr) / max 1 (maxa - lthr))))
  if thr_range ≤ 1 ∧ hr_range ≤ 1 then 30/100 else base

/-- An optional input that is present and strictly positive; the
requirement claim C5 places on each of the four mandatory arguments. -/
def posOpt (o : Option ℚ) : Prop := ∃ x, o = some x ∧ 0 < x

instance (o : Option ℚ) : Decidable (posOpt o) := by
  unfold posOpt
  cases o with
  | none => exact isFalse (by simp)
  | some x => exact decidable_of_iff (0 < x) (by simp)

/-! ## `src/domain/body_metrics/vo2.py`

The source computes with `math.exp`, so this section embeds into `ℝ`.
A split is the triple of entries the function reads; `none` covers a
missing key, and `x or 0` becomes `Option.getD · 0`. -/

section Vo2

open scoped Classical

/-- A distance split as read by `vo2max_minutes`. -/
structure Vo2Split where
  moving_time : Option ℝ
  average_heartrate : Option ℝ
  max_heartrate : Option ℝ

/-- `clamp` helper of `vo2max_minutes` (defaults `low = 0`, `high = 1`). -/
noncomputable def vo2Clamp (value : ℝ) (low : ℝ := 0) (high : ℝ := 1) : ℝ :=
  max low (min high value)

/-- `relative_excess_above_threshold` helper of `vo2max_minutes`. -/
noncomputable def relativeExcessAboveThreshold (thr : ℝ) (x : ℝ) : ℝ :=
  let numerator := x - thr
  let denominator := 1 - thr
  if denominator ≤ 0 then 0 else vo2Clamp (numerator / denominator)

/-- Per-split accumulation step of the `for` loop in `vo2max_minutes`:
seconds this split adds to `total_vo2_seconds`. -/
noncomputable def vo2SplitSeconds (thr tau cap max_hr : ℝ) (s : Vo2Split) : ℝ :=
  let lap_seconds := s.moving_time.getD 0
  let avg_hr := s.average_heartrate.getD 0
  let peak_hr := s.max_heartrate.getD 0
  if lap_seconds ≤ 0 ∨ avg_hr ≤ 0 ∨ peak_hr ≤ 0 then 0
  else
    let avg_evidence := relativeExcessAboveThreshold thr (avg_hr / max_hr)
    let peak_evidence := relativeExcessAboveThreshold thr (peak_hr / max_hr)
    let settling_factor := vo2Clamp (1 - Real.exp (-lap_seconds / tau))
    let peak_add_back := cap * settling_factor * peak_evidence
    vo2Clamp (avg_evidence + (1 - avg_evidence) * peak_add_back) * lap_seconds

/-- `src/domain/body_metrics/vo2.py`, `vo2max_minutes`, with the source's
default keyword arguments. `not max_hr` covers both a missing value and 0. -/
noncomputable def vo2max_minutes (splits : List Vo2Split) (max_hr : Option ℝ)
    (thr : ℝ := 88/100) (tau : ℝ := 30) (cap : ℝ := 70/100) : ℝ :=
  if splits = [] ∨ max_hr = none ∨ max_hr.getD 0 = 0 ∨ max_hr.getD 0 ≤ 0 then 0
  else ((splits.map (vo2SplitSeconds thr tau cap (max_hr.getD 0))).sum) / 60

/-- Claim C7's per-split contribution, exactly as worded: `zone × duration`
with `zone = avg_ev + (1 − avg_ev) · 0.70 · (1 − e^(−duration/30)) · peak_ev`
clamped to `[0, 1]`, where each evidence is the linear excess of `hr/max_hr`
over the 0.88 threshold clamped to `[0, 1]`; invalid splits contribute 0. -/
noncomputable def vo2ClaimContribution (max_hr : ℝ) (s : Vo2Split) : ℝ :=
  let t := s.moving_time.getD 0
  let avg := s.average_heartrate.getD 0
  let peak := s.max_heartrate.getD 0
  if t ≤ 0 ∨ avg ≤ 0 ∨ peak ≤ 0 then 0
  else
    let avg_ev := vo2Clamp ((avg / max_hr - 88/100) / (1 - 88/100))
    let peak_ev := vo2Clamp ((peak / max_hr - 88/100) / (1 - 88/100))
    let zone :=
      vo2Clamp (avg_ev + (1 - avg_ev) * ((70/100) * ((1 - Real.exp (-t / 30)) * peak_ev)))
    zone * t

/-- Claim C7's reading of `vo2max_minutes`: 0 for an empty list or a missing
or non-positive `max_hr`, else accumulated per-split seconds divided by 60. -/
noncomputable def vo2ClaimSpec (splits : List Vo2Split) (max_hr : Option ℝ) : ℝ :=
  match max_hr with
  | none => 0
  | some m =>
      if m ≤ 0 then 0
      else if splits = [] then 0
      else ((splits.map (vo2ClaimContribution m)).sum) / 60

end Vo2

/-! ## `src/domain/body_metrics/moving_average.py`

`BodyMeasurement` metric fields are embedded as optional values, exactly as
`add_moving_average` reads them (it filters `None` entries per metric before
averaging). -/

/-- The seven tracked metrics, in the order of the source's `metrics` list. -/
inductive BodyMetric where
  | weight_kg | fat_mass_kg | muscle_mass_kg | bone_mass_kg
  | hydration_kg | fat_free_mass_kg | body_fat_percent
  deriving DecidableEq, Repr

/-- The source's `metrics` list, in order. -/
def bodyMetrics : List BodyMetric :=
  [.weight_kg, .fat_mass_kg, .muscle_mass_kg, .bone_mass_kg,
   .hydration_kg, .fat_free_mass_kg, .body_fat_percent]

/-- `src/models/body.py`, `BodyMeasurementAverages`. -/
structure BodyMeasurementAverages where
  weight_kg : ℚ
  fat_mass_kg : ℚ
  muscle_mass_kg : ℚ
  bone_mass_kg : ℚ
  hydration_kg : ℚ
  fat_free_mass_kg : ℚ
  body_fat_percent : ℚ
  deriving DecidableEq, Repr

/-- `src/models/body.py`, `BodyMeasurement`, restricted to the fields
`add_moving_average` touches. -/
structure BodyMeasurement where
  measurement_time : ℚ
  weight_kg : Option ℚ
  fat_mass_kg : Option ℚ
  muscle_mass_kg : Option ℚ
  bone_mass_kg : Option ℚ
  hydration_kg : Option ℚ
  fat_free_mass_kg : Option ℚ
  body_fat_percent : Option ℚ
  device_name : String
  moving_average_7d : Option BodyMeasurementAverages
  deriving DecidableEq, Repr

/-- `getattr(m, metric)` for the tracked metrics. -/
def metricValue (m : BodyMeasurement) : BodyMetric → Option ℚ
  | .weight_kg => m.weight_kg
  | .fat_mass_kg => m.fat_mass_kg
  | .muscle_mass_kg => m.muscle_mass_kg
  | .bone_mass_kg => m.bone_mass_kg
  | .hydration_kg => m.hydration_kg
  | .fat_free_mass_kg => m.fat_free_mass_kg
  | .body_fat_percent => m.body_fat_percent

/-- `deque(maxlen=window)` after appending `v`: keep the last `window`
entries. -/
def dequeAppend (window : ℕ) (q : List (Option ℚ)) (v : Option ℚ) : List (Option ℚ) :=
  let q' := q ++ [v]
  q'.drop (q'.length - window)

/-- The non-`None` entries of a metric queue. -/
def validValues (q : List (Option ℚ)) : List ℚ := q.filterMap id

/-- The `averages` dict built per measurement: the loop appends each metric
average in order and breaks at the first metric with fewer than 3 valid
values; the snapshot is attached only when all seven metrics passed
(`len(averages) == len(metrics)`). -/
def averagesFromQueues (queues : BodyMetric → List (Option ℚ)) :
    Option BodyMeasurementAverages :=
  let avgOf := fun m => (validValues (queues m)).sum / (validValues (queues m)).length
  if bodyMetrics.all (fun m => 3 ≤ (validValues (queues m)).length) then
    some ⟨avgOf .weight_kg, avgOf .fat_mass_kg, avgOf .muscle_mass_kg,
          avgOf .bone_mass_kg, avgOf .hydration_kg, avgOf .fat_free_mass_kg,
          avgOf .body_fat_percent⟩
  else none

/-- The `for m in sorted_measurements` loop of `add_moving_average`,
carrying the per-metric deques. -/
def movingAverageLoop (window : ℕ) (queues : BodyMetric → List (Option ℚ)) :
    List BodyMeasurement → List BodyMeasurement
  | [] => []
  | m :: rest =>
      let queues' := fun metric => dequeAppend window (queues metric) (metricValue m metric)
      { m with moving_average_7d := averagesFromQueues queues' }
        :: movingAverageLoop window queues' rest

/-- `sorted(measurements, key=lambda m: m.measurement_time)` (stable). -/
def sortByTime (ms : List BodyMeasurement) : List BodyMeasurement :=
  ms.insertionSort (fun a b => a.measurement_time ≤ b.measurement_time)

/-- `src/domain/body_metrics/moving_average.py`, `add_moving_average`. -/
def add_moving_average (measurements : List BodyMeasurement) (window : ℕ := 7) :
    List BodyMeasurement :=
  movingAverageLoop window (fun _ => []) (sortByTime measurements)

/-- The window of claim C9: the values of one metric over the last `window`
measurements of the sorted list up to and including position `i`. -/
def metricWindow (window : ℕ) (sorted : List BodyMeasurement) (i : ℕ)
    (metric : BodyMetric) : List (Option ℚ) :=
  let seen := (sorted.take (i + 1)).map (fun m => metricValue m metric)
  seen.drop (seen.length - window)

/-! ## `src/notion/infrastructure/workout_repository.py`

The Notion workout database is modelled as a list of pages; each page is an
association list from property name to property value, read with
first-match lookup (supplied fields shadow older ones on partial update).
The athlete-profile query result (already sorted and truncated by the
Notion API, an external collaborator) is an argument. -/

/-- A Notion property value as written or read by the adapter. -/
inductive PropVal where
  | number (v : Option ℚ)
  | title (s : String)
  | date (s : String)
  | richText (s : String)
  | select (s : String)
  deriving DecidableEq, Repr

/-- The property bag of one Notion page. -/
abbrev PropMap := List (String × PropVal)

/-- First-match property lookup (`props.get(name)`). -/
def lookupProp (props : PropMap) (name : String) : Option PropVal :=
  (List.find? (fun kv => kv.1 = name) props).map (fun kv => kv.2)

/-- `props.get(name, {}).get("number")`: the numeric payload when the
property exists and is a number property, otherwise `None`. -/
def numberOf (props : PropMap) (name : String) : Option ℚ :=
  match lookupProp props name with
  | some (.number v) => v
  | _ => none

/-- A page of the workout database. -/
structure NotionPage where
  pid : ℕ
  props : PropMap
  deriving DecidableEq, Repr

/-- The workout database state. -/
abbrev WorkoutStore := List NotionPage

/-- A Python dict with optional-number values (`athlete` profile dict);
`dict.get` yields `None` both for a missing key and a stored `None`. -/
def dictGet (d : List (String × Option ℚ)) (k : String) : Option ℚ :=
  match List.find? (fun kv => kv.1 = k) d with
  | some kv => kv.2
  | none => none

/-- `NotionWorkoutAdapter.fetch_latest_athlete_profile`, as a function of
the query results (the profile database sorted by descending date,
`page_size = 1`): an empty dict when there are no results, else the three
keys `ftp`, `weight`, `max_hr` read from the newest page. -/
def fetch_latest_athlete_profile (results : List PropMap) :
    List (String × Option ℚ) :=
  match results with
  | [] => []
  | props :: _ =>
      [("ftp", numberOf props "FTP Watts"),
       ("weight", numberOf props "Weight Kg"),
       ("max_hr", numberOf props "Max HR")]

/-- `src/models/strava.py`, `StravaActivity`, restricted to the scalar
fields `save_workout` reads from `detail` (`id` and `name` are required,
everything else optional). -/
structure StravaDetail where
  id : ℤ
  name : String
  start_date : Option String
  elapsed_time : Option ℚ
  distance : Option ℚ
  total_elevation_gain : Option ℚ
  type : Option String
  average_cadence : Option ℚ
  average_watts : Option ℚ
  weighted_average_watts : Option ℚ
  kilojoules : Option ℚ
  calories : Option ℚ
  average_heartrate : Option ℚ
  max_heartrate : Option ℚ
  moving_time : Option ℚ
  description : Option String
  deriving DecidableEq, Repr

/-- `date_only`: the date part of `start_date` when it is a non-empty
string, else today's date (the clock is passed in as `now_date`). -/
def splitOnCharAux (c : Char) (acc : List Char) : List Char → List String
  | [] => [String.mk acc.reverse]
  | ch :: rest =>
      if ch = c then String.mk acc.reverse :: splitOnCharAux c [] rest
      else splitOnCharAux c (ch :: acc) rest

/-- `str.split(sep)` for a one-character separator, on the character list
of the string (structurally recursive, so concrete witnesses evaluate). -/
def splitOnChar (c : Char) (s : String) : List String :=
  splitOnCharAux c [] s.data

/-- Fold a digit string into a number, `none` at the first non-digit. -/
def digitsToNatAux (acc : ℕ) : List Char → Option ℕ
  | [] => some acc
  | ch :: rest =>
      if ch.isDigit then digitsToNatAux (acc * 10 + (ch.toNat - 48)) rest
      else none

/-- `int(s)` on a digit-only string, `none` when empty or non-numeric. -/
def strToNat? (s : String) : Option ℕ :=
  if s.data = [] then none else digitsToNatAux 0 s.data

def isoDateOnly (start_date : Option String) (now_date : String) : String :=
  match start_date with
  | some s => if s ≠ "" then (splitOnChar 'T' s).headD s else now_date
  | none => now_date

/-- Gregorian leap year. -/
def isLeapYear (y : ℕ) : Bool :=
  y % 4 = 0 && (y % 100 ≠ 0 || y % 400 = 0)

/-- Days in a Gregorian month. -/
def daysInMonth (y m : ℕ) : ℕ :=
  if m = 2 then (if isLeapYear y then 29 else 28)
  else if m = 4 ∨ m = 6 ∨ m = 9 ∨ m = 11 then 30
  else 31

/-- `datetime.fromisoformat` on a `YYYY-MM-DD` string: the calendar date,
or `none` when the string is not a valid ISO date (the source raises). -/
def parseIsoDate (s : String) : Option (ℕ × ℕ × ℕ) :=
  match splitOnChar '-' s with
  | [ys, ms, ds] =>
      if ys.length = 4 ∧ ms.length = 2 ∧ ds.length = 2 then
        match strToNat? ys, strToNat? ms, strToNat? ds with
        | some y, some m, some d =>
            if 1 ≤ m ∧ m ≤ 12 ∧ 1 ≤ d ∧ d ≤ daysInMonth y m then some (y, m, d)
            else none
        | _, _, _ => none
      else none
  | _ => none

/-- Zeller's congruence for the Gregorian calendar: 0 = Saturday. -/
def zellerIndex (y m d : ℕ) : ℕ :=
  let y' := if m < 3 then y - 1 else y
  let m' := if m < 3 then m + 12 else m
  let k := y' % 100
  let j := y' / 100
  (d + 13 * (m' + 1) / 5 + k + k / 4 + j / 4 + 5 * j) % 7

/-- `strftime("%A")`: the English weekday name. -/
def weekdayName (h : ℕ) : String :=
  ["Saturday", "Sunday", "Monday", "Tuesday",
   "Wednesday", "Thursday", "Friday"].getD h ""

/-- `datetime.fromisoformat(date_only).strftime("%A")`, `none` when the
date string does not parse. -/
def isoWeekdayName (s : String) : Option String :=
  (parseIsoDate s).map (fun ymd => weekdayName (zellerIndex ymd.1 ymd.2.1 ymd.2.2))

/-- `_add_number_prop`: append the property only when the value is not
`None`. -/
def addNumberProp (props : PropMap) (name : String) (value : Option ℚ) : PropMap :=
  match value with
  | some _ => props ++ [(name, .number value)]
  | none => props

/-- `str(detail.get("type") or "Gym")`: the activity type when present and
non-empty, else the default. -/
def typeOrGym (t : Option String) : String :=
  match t with
  | some s => if s ≠ "" then s else "Gym"
  | none => "Gym"

/-- The `props` dict built by `save_workout`, in source insertion order,
given the resolved `date_only`, weekday, and the post-fallback `tss` and
`intensity_factor`. The gzip+base64 `attachment` argument of `save_workout`
appears nowhere here: the source discards it (`_ = attachment`). -/
def workoutProps (detail : StravaDetail) (hr_drift vo2max : ℚ)
    (tss intensity_factor : Option ℚ) (date_only day_of_week : String) : PropMap :=
  let base : PropMap :=
    [("Name", .title detail.name),
     ("Date", .date date_only),
     ("Duration [s]", .number detail.elapsed_time),
     ("Distance [m]", .number detail.distance),
     ("Elevation [m]", .number detail.total_elevation_gain),
     ("Type", .richText (typeOrGym detail.type)),
     ("Id", .number (some (detail.id : ℚ))),
     ("Day of week", .select day_of_week)]
  let p := addNumberProp base "Average Cadence" detail.average_cadence
  let p := addNumberProp p "Average Watts" detail.average_watts
  let p := addNumberProp p "Weighted Average Watts" detail.weighted_average_watts
  let p := addNumberProp p "Kilojoules" detail.kilojoules
  let p := addNumberProp p "Kcal" detail.calories
  let p := addNumberProp p "Average Heartrate" detail.average_heartrate
  let p := addNumberProp p "Max Heartrate" detail.max_heartrate
  let p := addNumberProp p "HR drift [%]" (some hr_drift)
  let p := addNumberProp p "VO2 MAX [min]" (some vo2max)
  let p := addNumberProp p "TSS" tss
  let p := addNumberProp p "IF" intensity_factor
  match detail.description with
  | some desc => if desc ≠ "" then p ++ [("Notes", .richText desc)] else p
  | none => p

/-- The estimate fallback at the top of `save_workout`: when either of
`intensity_factor`/`tss` is missing, fetch the latest athlete profile and
fill the missing one(s) from `estimate_if_tss_from_hr`. -/
def resolveEstimates (profileResults : List PropMap) (detail : StravaDetail)
    (tss intensity_factor : Option ℚ) : Option ℚ × Option ℚ :=
  if intensity_factor = none ∨ tss = none then
    let athlete := fetch_latest_athlete_profile profileResults
    let estimate := estimate_if_tss_from_hr
      detail.average_heartrate
      detail.max_heartrate
      (pyOrOpt detail.moving_time detail.elapsed_time)
      (dictGet athlete "max_hr")
      (dictGet athlete "resting_hr")
      detail.calories
    match estimate with
    | some (ifv, tssv) =>
        (some (tss.getD tssv), some (intensity_factor.getD ifv))
    | none => (tss, intensity_factor)
  else (tss, intensity_factor)

/-- The query `save_workout` issues: first page whose `Id` number equals
the activity id (`page_size = 1`, `results[0]`). -/
def queryById (store : WorkoutStore) (id : ℤ) : Option NotionPage :=
  List.find? (fun p => numberOf p.props "Id" = some (id : ℚ)) store

/-- `client.update(page_id, {"properties": props})`: merge the supplied
properties into the first page with that id (supplied fields shadow the
stored ones under first-match lookup). -/
def updatePage (store : WorkoutStore) (pid : ℕ) (props : PropMap) : WorkoutStore :=
  match store with
  | [] => []
  | p :: rest =>
      if p.pid = pid then { p with props := props ++ p.props } :: rest
      else p :: updatePage rest pid props

/-- Whether `save_workout` updated an existing page or created a new one. -/
inductive SaveAction where
  | created
  | updated (pid : ℕ)
  deriving DecidableEq, Repr

/-- `NotionWorkoutAdapter.save_workout`. Impure collaborators are explicit
arguments: `profileResults` is the athlete-profile query result, `store`
the workout database, `freshPid` the page id Notion assigns on create, and
`now_date` today's date. The `attachment` argument is accepted and, as in
the source, never used. Raises (`Except.error`) only when
`datetime.fromisoformat` rejects the date string. -/
def save_workout (profileResults : List PropMap) (store : WorkoutStore)
    (freshPid : ℕ) (now_date : String) (detail : StravaDetail)
    (attachment : String) (hr_drift vo2max : ℚ)
    (tss intensity_factor : Option ℚ) : Except String (SaveAction × WorkoutStore) :=
  let resolved := resolveEstimates profileResults detail tss intensity_factor
  let date_only := isoDateOnly detail.start_date now_date
  match isoWeekdayName date_only with
  | none => .error "Invalid isoformat string"
  | some day_of_week =>
      let _ := attachment
      let props := workoutProps detail hr_drift vo2max resolved.1 resolved.2
        date_only day_of_week
      match queryById store detail.id with
      | some page => .ok (.updated page.pid, updatePage store page.pid props)
      | none => .ok (.created, store ++ [⟨freshPid, props⟩])

/-- The number of pages of the store whose `Id` property equals `id`;
claim C2's record count per external id. -/
def countId (store : WorkoutStore) (id : ℤ) : ℕ :=
  (store.filter (fun p => numberOf p.props "Id" = some (id : ℚ))).length

/-! ## `src/strava/infrastructure/client.py` and
`src/withings/infrastructure/client.py`

Both clients are embedded as explicit state-passing functions. The state
carries the Redis cache contents and a trace (refresh invocations, token
POSTs, data GETs, cache writes). The network is the environment: `tokResps`
gives the response to the n-th token-endpoint POST and `net` the response
to the n-th data GET issued with a given bearer token (the request path and
parameters are fixed inside each method, so a response depends only on the
attempt and the token). -/

/-- A `redis.set` call: key, value and the `ex` TTL when one was given. -/
structure CacheWrite where
  key : String
  value : String
  ttl : Option ℤ
  deriving DecidableEq, Repr

/-- Client-side state: the cache plus the observable trace. -/
structure ClientState where
  redis : List (String × String)
  refreshCalls : ℕ
  tokenPosts : ℕ
  getCalls : ℕ
  writes : List CacheWrite
  deriving DecidableEq, Repr

/-- An initial state with the given cache and an empty trace. -/
def initState (redis : List (String × String)) : ClientState :=
  ⟨redis, 0, 0, 0, []⟩

/-- `redis.get`. -/
def redisGet (s : ClientState) (k : String) : Option String :=
  (List.find? (fun kv => kv.1 = k) s.redis).map (fun kv => kv.2)

/-- `redis.set`, recording the write in the trace. -/
def redisSet (s : ClientState) (k v : String) (ttl : Option ℤ) : ClientState :=
  { s with
    redis := (k, v) :: s.redis.filter (fun kv => kv.1 ≠ k)
    writes := s.writes ++ [⟨k, v, ttl⟩] }

/-- Python truthiness of an optional string (`None` and `""` are falsy). -/
def pyTruthy (o : Option String) : Bool :=
  match o with
  | some s => s ≠ ""
  | none => false

/-- Errors escaping the Strava client: `StravaAuthError` with its message,
or the `httpx.HTTPStatusError` produced by `raise_for_status`. -/
inductive StravaErr where
  | auth (msg : String)
  | httpStatus (code : ℕ)
  deriving DecidableEq, Repr

/-- The decoded JSON of a Strava token-endpoint response. -/
structure StravaTokenResponse where
  status : ℕ
  access_token : Option String
  refresh_token : Option String
  expires_in : Option ℤ
  deriving DecidableEq, Repr

/-- A Strava activity-endpoint response; the JSON payload is abstract. -/
structure ActivityResponse where
  status : ℕ
  body : String
  deriving DecidableEq, Repr

/-- `StravaClient._refresh_access_token`. -/
def strava_refresh_access_token (tokResps : ℕ → StravaTokenResponse)
    (s : ClientState) : Except StravaErr String × ClientState :=
  let s := { s with refreshCalls := s.refreshCalls + 1 }
  if ¬ pyTruthy (redisGet s "strava_refresh_token") then
    (.error (.auth "No Strava refresh token found in Redis"), s)
  else
    let resp := tokResps s.tokenPosts
    let s := { s with tokenPosts := s.tokenPosts + 1 }
    if resp.status ≠ 200 then
      (.error (.auth "Failed to refresh Strava access token"), s)
    else if ¬ pyTruthy resp.access_token then
      (.error (.auth "Strava token refresh response missing access token"), s)
    else
      let tok := resp.access_token.getD ""
      let s :=
        match resp.expires_in with
        | some e =>
            if e ≠ 0 then redisSet s "strava_access_token" tok (some (e - 30))
            else redisSet s "strava_access_token" tok none
        | none => redisSet s "strava_access_token" tok none
      let s :=
        match resp.refresh_token with
        | some rt =>
            if rt ≠ "" then
              redisSet s "strava_refresh_token" rt (some (365 * 24 * 60 * 60))
            else s
        | none => s
      (.ok tok, s)

/-- `StravaClient._ensure_access_token`. -/
def strava_ensure_access_token (tokResps : ℕ → StravaTokenResponse)
    (s : ClientState) : Except StravaErr String × ClientState :=
  let token := redisGet s "strava_access_token"
  if pyTruthy token then (.ok (token.getD ""), s)
  else strava_refresh_access_token tokResps s

/-- `response.raise_for_status()` followed by `response.json()`. -/
def stravaRaiseForStatus (r : ActivityResponse) : Except StravaErr String :=
  if 400 ≤ r.status then .error (.httpStatus r.status) else .ok r.body

/-- `StravaClient.get_activity`. -/
def strava_get_activity (tokResps : ℕ → StravaTokenResponse)
    (net : ℕ → String → ActivityResponse) (s : ClientState) :
    Except StravaErr String × ClientState :=
  match strava_ensure_access_token tokResps s with
  | (.error e, s) => (.error e, s)
  | (.ok tok, s) =>
    let resp := net s.getCalls tok
    let s := { s with getCalls := s.getCalls + 1 }
    if resp.status = 401 then
      match strava_refresh_access_token tokResps s with
      | (.error e, s) => (.error e, s)
      | (.ok tok2, s) =>
        let resp2 := net s.getCalls tok2
        let s := { s with getCalls := s.getCalls + 1 }
        (stravaRaiseForStatus resp2, s)
    else (stravaRaiseForStatus resp, s)

/-- Errors escaping the Withings adapter: the `ValueError` and
`RuntimeError` messages the source raises. -/
inductive WithingsErr where
  | valueError (msg : String)
  | runtimeError (msg : String)
  deriving DecidableEq, Repr

/-- The decoded JSON of a Withings token-endpoint response: the HTTP
status, the top-level `status` field, and the `body` fields. -/
structure WithingsTokenResponse where
  status : ℕ
  jstatus : Option ℤ
  access_token : Option String
  refresh_token : Option String
  expires_in : Option ℤ
  deriving DecidableEq, Repr

/-- One entry of a measure group's `measures` list:
`(type, value, unit)`. -/
structure WithingsMeasure where
  type : ℕ
  value : ℤ
  unit : ℤ
  deriving DecidableEq, Repr

/-- One `measuregrps` entry. -/
structure WithingsGroup where
  date : ℤ
  device : Option String
  measures : List WithingsMeasure
  deriving DecidableEq, Repr

/-- The decoded JSON of a Withings `getmeas` response. -/
structure WithingsMeasResponse where
  status : ℕ
  jstatus : Option ℤ
  measuregrps : List WithingsGroup
  deriving DecidableEq, Repr

/-- `WithingsMeasurementsAdapter.refresh_access_token`. -/
def withings_refresh_access_token (tokResps : ℕ → WithingsTokenResponse)
    (s : ClientState) : Except WithingsErr String × ClientState :=
  let s := { s with refreshCalls := s.refreshCalls + 1 }
  if ¬ pyTruthy (redisGet s "withings_refresh_token") then
    (.error (.valueError "No Withings refresh token found in Redis"), s)
  else
    let resp := tokResps s.tokenPosts
    let s := { s with tokenPosts := s.tokenPosts + 1 }
    if resp.status ≠ 200 then
      (.error (.runtimeError "Failed to refresh Withings access token"), s)
    else if resp.jstatus ≠ some 0 then
      (.error (.runtimeError "Withings API error"), s)
    else if ¬ pyTruthy resp.access_token then
      (.error (.runtimeError "Withings refresh response missing access token"), s)
    else
      let tok := resp.access_token.getD ""
      let s :=
        match resp.expires_in with
        | some e =>
            if e ≠ 0 then redisSet s "withings_access_token" tok (some (e - 30))
            else redisSet s "withings_access_token" tok none
        | none => redisSet s "withings_access_token" tok none
      let s :=
        match resp.refresh_token with
        | some rt =>
            if rt ≠ "" then
              redisSet s "withings_refresh_token" rt (some (365 * 24 * 60 * 60))
            else s
        | none => s
      (.ok tok, s)

/-- `value × 10^unit` lookup in the dict comprehension
`{m["type"]: m["value"] * (10 ** m["unit"]) for m in measures}` followed by
`measures.get(code, 0)`; a later duplicate type code overwrites an earlier
one. -/
def measureValue (ms : List WithingsMeasure) (code : ℕ) : ℚ :=
  match List.find? (fun m => m.type = code) ms.reverse with
  | some m => (m.value : ℚ) * (10 : ℚ) ^ m.unit
  | none => 0

/-- Construction of one `BodyMeasurement` from a measure group, with the
fixed type-code mapping (1 weight, 8 fat mass, 76 muscle, 88 bone,
77 hydration, 5 fat-free mass, 6 fat percent). -/
def parseMeasureGroup (g : WithingsGroup) : BodyMeasurement :=
  { measurement_time := (g.date : ℚ)
    weight_kg := some (measureValue g.measures 1)
    fat_mass_kg := some (measureValue g.measures 8)
    muscle_mass_kg := some (measureValue g.measures 76)
    bone_mass_kg := some (measureValue g.measures 88)
    hydration_kg := some (measureValue g.measures 77)
    fat_free_mass_kg := some (measureValue g.measures 5)
    body_fat_percent := some (measureValue g.measures 6)
    device_name := g.device.getD "Withings Device"
    moving_average_7d := none }

/-- `WithingsMeasurementsAdapter.fetch_measurements`. Note that after the
single 401-triggered retry the source never re-reads the HTTP status code:
it decodes the JSON and fails only when the body's `status` field is not
zero. -/
def withings_fetch_measurements (tokResps : ℕ → WithingsTokenResponse)
    (net : ℕ → String → WithingsMeasResponse) (s : ClientState) :
    Except WithingsErr (List BodyMeasurement) × ClientState :=
  let cached := redisGet s "withings_access_token"
  let start :=
    if pyTruthy cached then (Except.ok (cached.getD ""), s)
    else withings_refresh_access_token tokResps s
  match start with
  | (.error e, s) => (.error e, s)
  | (.ok tok, s) =>
    let resp := net s.getCalls tok
    let s := { s with getCalls := s.getCalls + 1 }
    let after :=
      if resp.status = 401 then
        match withings_refresh_access_token tokResps s with
        | (.error e, s) => (Except.error e, s)
        | (.ok tok2, s) =>
          let resp2 := net s.getCalls tok2
          let s := { s with getCalls := s.getCalls + 1 }
          (Except.ok resp2, s)
      else (Except.ok resp, s)
    match after with
    | (.error e, s) => (.error e, s)
    | (.ok finalResp, s) =>
      if finalResp.jstatus ≠ some 0 then
        (.error (.runtimeError "Withings API error"), s)
      else
        (.ok (finalResp.measuregrps.map parseMeasureGroup), s)

/-! ## Helper lemmas -/

/-- `roundHalfEven` stays between any integer bounds that bracket its
argument. -/
theorem roundHalfEven_bounds (a b : ℤ) (q : ℚ) (ha : (a : ℚ) ≤ q)
    (hb : q ≤ (b : ℚ)) : a ≤ roundHalfEven q ∧ roundHalfEven q ≤ b := by
  have hfa : a ≤ ⌊q⌋ := Int.le_floor.mpr ha
  have hfb : ⌊q⌋ ≤ b := by
    have h := Int.floor_le_floor hb
    simpa using h
  have hfq : (⌊q⌋ : ℚ) ≤ q := Int.floor_le q
  simp only [roundHalfEven]
  split_ifs with h1 h2 h3
  · exact ⟨hfa, hfb⟩
  · have hq : (⌊q⌋ : ℚ) < q := by linarith
    have : ⌊q⌋ < b := by exact_mod_cast hq.trans_le hb
    exact ⟨le_trans hfa (by omega), by omega⟩
  · exact ⟨hfa, hfb⟩
  · have hq : (⌊q⌋ : ℚ) < q := by
      have : (1 : ℚ) / 2 ≤ q - ⌊q⌋ := le_of_not_lt h1
      linarith
    have : ⌊q⌋ < b := by exact_mod_cast hq.trans_le hb
    exact ⟨le_trans hfa (by omega), by omega⟩

/-- `pyRound2` maps `[0.30, 1.35]` into itself. -/
theorem pyRound2_mem (q : ℚ) (hlo : 30/100 ≤ q) (hhi : q ≤ 135/100) :
    30/100 ≤ pyRound2 q ∧ pyRound2 q ≤ 135/100 := by
  have h := roundHalfEven_bounds 30 135 (100 * q) (by push_cast; linarith)
    (by push_cast; linarith)
  unfold pyRound2
  constructor
  · have : (30 : ℚ) ≤ (roundHalfEven (100 * q) : ℚ) := by exact_mod_cast h.1
    linarith
  · have : ((roundHalfEven (100 * q) : ℚ)) ≤ 135 := by exact_mod_cast h.2
    linarith

/-- Claim C8: `hr_drift_from_splits` computes exactly the spec's formula —
split at `⌊n/2⌋` (extra element to the second half), average the valid
heart rates of each half, return the relative drift ×100, and return 0 for
the empty list, a half with no valid sample, or a zero first-half average. -/
theorem hr_drift_matches_spec (splits : List (Option ℚ)) :
    hr_drift_from_splits splits = hrDriftSpec splits := by
  unfold hr_drift_from_splits hrDriftSpec
  rcases splits with _ | ⟨a, rest⟩
  · rfl
  · rcases rest with _ | ⟨b, rest'⟩
    · simp [averageHr]
    · simp only [List.length_cons]
      have hne : (a :: b :: rest') ≠ [] := by simp
      have hhalf : (rest'.length + 1 + 1) / 2 ≠ 0 := by omega
      simp [hne, hhalf]

/-- `posOpt` on a present value is positivity. -/
theorem posOpt_some (x : ℚ) : posOpt (some x) ↔ 0 < x := by simp [posOpt]

/-- Any value of the shape the source gives `if_est` lies in
`[0.30, 1.35]`. -/
theorem ifEst_shape_bounds (c1 c2 : Prop) [Decidable c1] [Decidable c2] (z : ℚ) :
    30/100 ≤ (if c1 then (30/100 : ℚ) else if c2 then 30/100
        else max (30/100) (min (135/100) z))
    ∧ (if c1 then (30/100 : ℚ) else if c2 then 30/100
        else max (30/100) (min (135/100) z)) ≤ 135/100 := by
  split_ifs with hc1 hc2
  · exact ⟨le_refl _, by norm_num⟩
  · exact ⟨le_refl _, by norm_num⟩
  · exact ⟨le_max_left _ _, max_le (by norm_num) (min_le_left _ _)⟩

/-- Claim C5: `estimate_if_tss_from_hr` yields `none` exactly when one of
the four required inputs (session average HR, session max HR, duration,
athlete max HR) is missing or non-positive, and on every valid input the
returned intensity factor lies in `[0.30, 1.35]`. -/
theorem estimate_if_tss_none_iff_and_if_range (a m d M r k : Option ℚ) :
    (estimate_if_tss_from_hr a m d M r k = none ↔
      ¬(posOpt a ∧ posOpt m ∧ posOpt d ∧ posOpt M))
    ∧ ∀ iv tv, estimate_if_tss_from_hr a m d M r k = some (iv, tv) →
        30/100 ≤ iv ∧ iv ≤ 135/100 := by
  rcases a with _ | av <;> rcases m with _ | mv <;> rcases d with _ | dv <;>
    rcases M with _ | Mv <;>
    try (simp [estimate_if_tss_from_hr, posOpt]; done)
  by_cases h1 : dv ≤ 0
  · refine ⟨?_, ?_⟩
    · simp only [estimate_if_tss_from_hr, if_pos h1]
      refine iff_of_true (by simp) ?_
      rintro ⟨-, -, hd, -⟩
      rw [posOpt_some] at hd
      linarith
    · intro iv tv hsome
      simp only [estimate_if_tss_from_hr, if_pos h1] at hsome
      exact absurd hsome (by simp)
  · by_cases h2 : av ≤ 0 ∨ mv ≤ 0 ∨ Mv ≤ 0
    · refine ⟨?_, ?_⟩
      · simp only [estimate_if_tss_from_hr, if_neg h1, if_pos h2]
        refine iff_of_true (by simp) ?_
        rintro ⟨ha', hm', -, hM'⟩
        rw [posOpt_some] at ha' hm' hM'
        rcases h2 with h | h | h <;> linarith
      · intro iv tv hsome
        simp only [estimate_if_tss_from_hr, if_neg h1, if_pos h2] at hsome
        exact absurd hsome (by simp)
    · push_neg at h2
      have h2n : ¬(av ≤ 0 ∨ mv ≤ 0 ∨ Mv ≤ 0) := by push_neg; exact h2
      refine ⟨?_, ?_⟩
      · simp only [estimate_if_tss_from_hr, if_neg h1, if_neg h2n]
        refine iff_of_false (by simp) (not_not_intro ?_)
        exact ⟨⟨av, rfl, h2.1⟩, ⟨mv, rfl, h2.2.1⟩, ⟨dv, rfl, not_le.mp h1⟩,
          ⟨Mv, rfl, h2.2.2⟩⟩
      · intro iv tv hsome
        simp only [estimate_if_tss_from_hr, if_neg h1, if_neg h2n] at hsome
        rw [Option.some_inj, Prod.mk.injEq] at hsome
        obtain ⟨hiv, -⟩ := hsome
        subst hiv
        exact pyRound2_mem _ (ifEst_shape_bounds _ _ _).1 (ifEst_shape_bounds _ _ _).2

/-- Witness for claim C5 at a concrete valid session
(avg 150, max 170, 3600 s, athlete max 190). -/
theorem estimate_if_tss_none_iff_and_if_range_witness :
    30/100 ≤ (17/20 : ℚ) ∧ (17/20 : ℚ) ≤ 135/100 :=
  (estimate_if_tss_none_iff_and_if_range (some 150) (some 170) (some 3600)
    (some 190) none none).2 (17/20) (847/10)
    (by norm_num [estimate_if_tss_from_hr, pyRound2, pyRound1, roundHalfEven,
      min_def, max_def])

/-- Claim C10: the athlete-profile dict built by
`fetch_latest_athlete_profile` never carries a `resting_hr` key, so the
`hr_rest_athlete` argument wired from it is always `None`, and
`estimate_if_tss_from_hr` behaves exactly as with the default rest HR
of 66. -/
theorem athlete_profile_rest_hr_defaults
    (results : List PropMap) (a m d M k : Option ℚ) :
    dictGet (fetch_latest_athlete_profile results) "resting_hr" = none
    ∧ estimate_if_tss_from_hr a m d M
        (dictGet (fetch_latest_athlete_profile results) "resting_hr") k
      = estimate_if_tss_from_hr a m d M (some 66) k := by
  have hnone : dictGet (fetch_latest_athlete_profile results) "resting_hr" = none := by
    rcases results with _ | ⟨p, rest⟩ <;> rfl
  refine ⟨hnone, ?_⟩
  rw [hnone]
  rcases a with _ | av <;> rcases m with _ | mv <;> rcases d with _ | dv <;>
    rcases M with _ | Mv <;> rfl

/-- Counterexample to claim C6 at session avg HR 80, session max HR 90,
3600 s, athlete max HR 70 (default rest HR 66): the code returns
`IF = 1.35, TSS = 135.0`, while the claim's formula — with raw denominators
`LTHR − rest` and `maxa − LTHR` — demands `IF = 0.30, TSS = 30`. -/
theorem estimate_if_tss_claim_counterexample :
    estimate_if_tss_from_hr (some 80) (some 90) (some 3600) (some 70) none none
      = some (27/20, 135)
    ∧ ifClaimC6 80 90 70 66 = 30/100
    ∧ (3600 : ℚ)/3600 * ifClaimC6 80 90 70 66 * 100 = 30
    ∧ (27/20 : ℚ) ≠ 30/100 ∧ (135 : ℚ) ≠ 30 := by
  refine ⟨?_, ?_, ?_, by norm_num, by norm_num⟩
  · norm_num [estimate_if_tss_from_hr, pyRound2, pyRound1, roundHalfEven,
      min_def, max_def]
  · norm_num [ifClaimC6, lthrOf, min_def, max_def]
  · norm_num [ifClaimC6, lthrOf, min_def, max_def]

/-- Claim C6 as amended: on every valid input the returned pair is the
claim's LTHR/intensity/TSS computation with the `max(1, ·)` guards on the
two denominators, the supra-threshold bump floored at 0, the degenerate
profile override to 0.30, rest HR defaulting to 66 unless supplied
positive, the IF rounded to 2 decimals and the TSS — computed from the
unrounded IF — rounded to 1 decimal. -/
theorem estimate_if_tss_formula (avg maxs dur maxa : ℚ) (r k : Option ℚ)
    (ha : 0 < avg) (hm : 0 < maxs) (hd : 0 < dur) (hM : 0 < maxa) :
    estimate_if_tss_from_hr (some avg) (some maxs) (some dur) (some maxa) r k
      = some (pyRound2 (ifAmendedC6 avg maxs maxa (restHrOf r)),
              pyRound1 (dur / 3600 * ifAmendedC6 avg maxs maxa (restHrOf r) * 100)) := by
  have h1 : ¬(dur ≤ 0) := not_le.mpr hd
  have h2 : ¬(avg ≤ 0 ∨ maxs ≤ 0 ∨ maxa ≤ 0) := by
    push_neg
    exact ⟨ha, hm, hM⟩
  have hcap : ∀ x : ℚ, max 1 x ≠ 0 :=
    fun x => ne_of_gt (lt_of_lt_of_le zero_lt_one (le_max_left 1 x))
  simp only [estimate_if_tss_from_hr, if_neg h1, if_neg h2, ifAmendedC6,
    lthrOf, restHrOf, ne_eq, hcap, not_false_eq_true, if_true, if_pos]

/-- Witness for the amended claim C6 at a concrete valid session. -/
theorem estimate_if_tss_formula_witness :
    estimate_if_tss_from_hr (some 150) (some 170) (some 3600) (some 190)
        none none
      = some (pyRound2 (ifAmendedC6 150 170 190 (restHrOf none)),
              pyRound1 ((3600 : ℚ) / 3600 * ifAmendedC6 150 170 190 (restHrOf none) * 100)) :=
  estimate_if_tss_formula 150 170 3600 190 none none
    (by norm_num) (by norm_num) (by norm_num) (by norm_num)

/-- The settling factor of a positive-duration split is already in
`[0, 1]`, so the source's clamp leaves it unchanged. -/
theorem vo2Clamp_settling (t tau : ℝ) (ht : 0 < t) (htau : 0 < tau) :
    vo2Clamp (1 - Real.exp (-t / tau)) = 1 - Real.exp (-t / tau) := by
  have hneg : -t / tau < 0 := div_neg_of_neg_of_pos (neg_neg_of_pos ht) htau
  have hlt : Real.exp (-t / tau) < 1 := by
    rw [Real.exp_lt_one_iff]
    exact hneg
  have hpos : 0 < Real.exp (-t / tau) := Real.exp_pos _
  unfold vo2Clamp
  rw [min_eq_right (by linarith), max_eq_right (by linarith)]

/-- With the default parameters, each split contributes to
`vo2max_minutes` exactly what claim C7's formula assigns it. -/
theorem vo2SplitSeconds_eq_claim (m : ℝ) (s : Vo2Split) :
    vo2SplitSeconds (88/100) 30 (70/100) m s = vo2ClaimContribution m s := by
  unfold vo2SplitSeconds vo2ClaimContribution
  by_cases hskip : s.moving_time.getD 0 ≤ 0 ∨ s.average_heartrate.getD 0 ≤ 0 ∨
      s.max_heartrate.getD 0 ≤ 0
  · rw [if_pos hskip, if_pos hskip]
  · rw [if_neg hskip, if_neg hskip]
    push_neg at hskip
    have ht : 0 < s.moving_time.getD 0 := hskip.1
    have hsettle := vo2Clamp_settling (s.moving_time.getD 0) 30 ht (by norm_num)
    have hden : ¬((1 : ℝ) - 88/100 ≤ 0) := by norm_num
    simp only [relativeExcessAboveThreshold, if_neg hden]
    rw [hsettle]
    ring_nf

/-- Claim C7: `vo2max_minutes` returns 0 for an empty list or a missing,
zero or negative athlete max HR; otherwise it accumulates, over the splits,
`zone × duration` seconds — zone blending average and peak evidence through
the exponential settling factor, clamped to `[0, 1]`, with splits of
non-positive duration or HR contributing nothing — and divides by 60. -/
theorem vo2max_minutes_matches_spec (splits : List Vo2Split) (max_hr : Option ℝ) :
    vo2max_minutes splits max_hr = vo2ClaimSpec splits max_hr := by
  unfold vo2max_minutes vo2ClaimSpec
  rcases max_hr with _ | m
  · simp
  · dsimp only [Option.getD_some]
    by_cases hm : m ≤ 0
    · rw [if_pos hm, if_pos (Or.inr (Or.inr (Or.inr hm)))]
    · rw [if_neg hm]
      rcases splits with _ | ⟨s, rest⟩
      · simp
      · have hnot : ¬((s :: rest : List Vo2Split) = [] ∨ (some m : Option ℝ) = none
            ∨ m = 0 ∨ m ≤ 0) := by
          push_neg
          exact ⟨by simp, by simp, fun h => hm (le_of_eq h), not_le.mp hm⟩
        rw [if_neg hnot, if_neg (by simp)]
        rw [List.map_congr_left (fun x _ => vo2SplitSeconds_eq_claim m x)]

/-- Appending to a bounded deque keeps at most `window` entries. -/
theorem dequeAppend_length (w : ℕ) (q : List (Option ℚ)) (v : Option ℚ) :
    (dequeAppend w q v).length = min (q.length + 1) w := by
  simp [dequeAppend]
  omega

/-- Folding a bounded deque over a stream keeps exactly the last `window`
entries of everything appended. -/
theorem foldl_dequeAppend (w : ℕ) (vs : List (Option ℚ)) :
    ∀ q : List (Option ℚ), q.length ≤ w →
      List.foldl (dequeAppend w) q vs = (q ++ vs).drop ((q ++ vs).length - w) := by
  induction vs with
  | nil =>
      intro q hq
      simp only [List.foldl_nil, List.append_nil]
      rw [Nat.sub_eq_zero_of_le hq, List.drop_zero]
  | cons v vs ih =>
      intro q hq
      have hq' : (dequeAppend w q v).length ≤ w := by
        rw [dequeAppend_length]
        omega
      rw [List.foldl_cons, ih _ hq']
      have hd : dequeAppend w q v = (q ++ [v]).drop (q.length + 1 - w) := by
        simp [dequeAppend]
      rw [hd]
      have hdle : q.length + 1 - w ≤ (q ++ [v]).length := by
        simp only [List.length_append, List.length_cons, List.length_nil]
        omega
      rw [← List.drop_append_of_le_length hdle, List.drop_drop]
      have hsplit : q ++ v :: vs = (q ++ [v]) ++ vs := by simp
      rw [hsplit]
      congr 1
      simp only [List.length_drop, List.length_append, List.length_cons,
        List.length_nil]
      omega

/-- The snapshot attached to the `i`-th processed measurement is computed
from the per-metric deques holding the last `window` values of the
processed prefix. -/
theorem movingAverageLoop_snapshot (w : ℕ) (l : List BodyMeasurement) :
    ∀ (q : BodyMetric → List (Option ℚ)) (i : ℕ) (m' : BodyMeasurement),
      (movingAverageLoop w q l)[i]? = some m' →
      m'.moving_average_7d = averagesFromQueues (fun metric =>
        List.foldl (dequeAppend w) (q metric)
          ((l.take (i+1)).map (fun mm => metricValue mm metric))) := by
  induction l with
  | nil =>
      intro q i m' h
      simp [movingAverageLoop] at h
  | cons m rest ih =>
      intro q i m' h
      rcases i with _ | i
      · simp only [movingAverageLoop, List.getElem?_cons_zero, Option.some_inj] at h
        subst h
        rfl
      · simp only [movingAverageLoop, List.getElem?_cons_succ] at h
        have := ih (fun metric => dequeAppend w (q metric) (metricValue m metric)) i m' h
        rw [this]
        rfl

/-- Claim C9: in the output of `add_moving_average` with window 7, a
measurement's snapshot is attached exactly when, within the window of the
(sorted) list ending at that measurement, every one of the seven tracked
metrics has at least 3 non-null values; a single under-populated metric
nulls the whole snapshot. -/
theorem add_moving_average_snapshot_iff (ms : List BodyMeasurement) (i : ℕ)
    (m' : BodyMeasurement) (h : (add_moving_average ms 7)[i]? = some m') :
    m'.moving_average_7d.isSome = true ↔
      ∀ metric ∈ bodyMetrics,
        3 ≤ (validValues (metricWindow 7 (sortByTime ms) i metric)).length := by
  have hsnap := movingAverageLoop_snapshot 7 (sortByTime ms) (fun _ => []) i m' h
  have hwin : (fun metric => List.foldl (dequeAppend 7) []
      (((sortByTime ms).take (i+1)).map (fun mm => metricValue mm metric)))
      = fun metric => metricWindow 7 (sortByTime ms) i metric := by
    funext metric
    rw [foldl_dequeAppend 7 _ [] (by simp)]
    simp [metricWindow]
  rw [hwin] at hsnap
  rw [hsnap]
  unfold averagesFromQueues
  split_ifs with hall
  · simp only [Option.isSome_some, true_iff]
    intro metric hmem
    have := List.all_eq_true.mp hall metric hmem
    exact of_decide_eq_true this
  · simp only [Option.isSome_none, Bool.false_eq_true, false_iff]
    intro hcontra
    apply hall
    rw [List.all_eq_true]
    intro metric hmem
    exact decide_eq_true (hcontra metric hmem)

/-- A concrete measurement for the claim C9 witness: every metric present
with value 1. -/
def witnessMeasurement (t : ℚ) : BodyMeasurement :=
  ⟨t, some 1, some 1, some 1, some 1, some 1, some 1, some 1, "scale", none⟩

/-- Three consecutive witness measurements. -/
def witnessMeasurements : List BodyMeasurement :=
  [witnessMeasurement 1, witnessMeasurement 2, witnessMeasurement 3]

/-- The third output measurement: its snapshot is populated. -/
def witnessMeasurementOut : BodyMeasurement :=
  { witnessMeasurement 3 with moving_average_7d := some ⟨1, 1, 1, 1, 1, 1, 1⟩ }

/-- Witness for claim C9: with three fully-populated measurements the third
snapshot is attached, and the theorem's window condition holds there. -/
theorem add_moving_average_snapshot_iff_witness :
    (add_moving_average witnessMeasurements 7)[2]? = some witnessMeasurementOut
    ∧ (witnessMeasurementOut.moving_average_7d.isSome = true ↔
        ∀ metric ∈ bodyMetrics,
          3 ≤ (validValues (metricWindow 7 (sortByTime witnessMeasurements) 2
              metric)).length) := by
  have hEq : (add_moving_average witnessMeasurements 7)[2]?
      = some witnessMeasurementOut := by
    norm_num [add_moving_average, sortByTime, List.insertionSort,
      List.orderedInsert, movingAverageLoop, dequeAppend, averagesFromQueues,
      validValues, metricValue, witnessMeasurements, witnessMeasurement,
      witnessMeasurementOut, bodyMetrics, List.filterMap_cons,
      List.filterMap_nil]
  exact ⟨hEq, add_moving_average_snapshot_iff witnessMeasurements 2
      witnessMeasurementOut hEq⟩

/-- `_add_number_prop` never disturbs the lookup of a different key. -/
theorem lookupProp_addNumberProp_ne (p : PropMap) (n : String) (v : Option ℚ)
    (k : String) (hk : n ≠ k) :
    lookupProp (addNumberProp p n v) k = lookupProp p k := by
  cases v with
  | none => rfl
  | some x =>
    unfold addNumberProp lookupProp
    rw [List.find?_append]
    have : List.find? (fun kv => kv.1 = k) [(n, PropVal.number (some x))] = none := by
      simp [hk]
    rw [this, Option.or_none]

/-- No property before the final `Notes` append is keyed `"Notes"`. -/
theorem workoutProps_notes_chain_none (detail : StravaDetail)
    (hr_drift vo2max : ℚ) (tss intensity_factor : Option ℚ)
    (date_only day_of_week : String) :
    lookupProp (addNumberProp (addNumberProp (addNumberProp (addNumberProp
      (addNumberProp (addNumberProp (addNumberProp (addNumberProp
        (addNumberProp (addNumberProp (addNumberProp
          [("Name", .title detail.name),
           ("Date", .date date_only),
           ("Duration [s]", .number detail.elapsed_time),
           ("Distance [m]", .number detail.distance),
           ("Elevation [m]", .number detail.total_elevation_gain),
           ("Type", .richText (typeOrGym detail.type)),
           ("Id", .number (some (detail.id : ℚ))),
           ("Day of week", .select day_of_week)]
          "Average Cadence" detail.average_cadence)
          "Average Watts" detail.average_watts)
          "Weighted Average Watts" detail.weighted_average_watts)
          "Kilojoules" detail.kilojoules)
          "Kcal" detail.calories)
          "Average Heartrate" detail.average_heartrate)
          "Max Heartrate" detail.max_heartrate)
          "HR drift [%]" (some hr_drift))
          "VO2 MAX [min]" (some vo2max))
          "TSS" tss)
          "IF" intensity_factor) "Notes" = none := by
  rw [lookupProp_addNumberProp_ne _ _ _ _ (by decide),
    lookupProp_addNumberProp_ne _ _ _ _ (by decide),
    lookupProp_addNumberProp_ne _ _ _ _ (by decide),
    lookupProp_addNumberProp_ne _ _ _ _ (by decide),
    lookupProp_addNumberProp_ne _ _ _ _ (by decide),
    lookupProp_addNumberProp_ne _ _ _ _ (by decide),
    lookupProp_addNumberProp_ne _ _ _ _ (by decide),
    lookupProp_addNumberProp_ne _ _ _ _ (by decide),
    lookupProp_addNumberProp_ne _ _ _ _ (by decide),
    lookupProp_addNumberProp_ne _ _ _ _ (by decide),
    lookupProp_addNumberProp_ne _ _ _ _ (by decide)]
  rfl

/-- Claim C1 as amended: `save_workout` discards its `attachment` argument
— the persisted record is entirely independent of it — while the `Notes`
property is written exactly when the activity description is a non-empty
string, carrying that description. -/
theorem save_workout_ignores_attachment
    (profileResults : List PropMap) (store : WorkoutStore) (freshPid : ℕ)
    (now_date : String) (detail : StravaDetail) (att1 att2 : String)
    (hr_drift vo2max : ℚ) (tss intensity_factor : Option ℚ)
    (date_only day_of_week : String) :
    save_workout profileResults store freshPid now_date detail att1
        hr_drift vo2max tss intensity_factor
      = save_workout profileResults store freshPid now_date detail att2
          hr_drift vo2max tss intensity_factor
    ∧ lookupProp (workoutProps detail hr_drift vo2max tss intensity_factor
          date_only day_of_week) "Notes"
      = (match detail.description with
         | some desc => if desc ≠ "" then some (.richText desc) else none
         | none => none) := by
  refine ⟨rfl, ?_⟩
  unfold workoutProps
  rcases hdesc : detail.description with _ | desc
  · exact workoutProps_notes_chain_none detail hr_drift vo2max tss
      intensity_factor date_only day_of_week
  · dsimp only
    by_cases hne : desc ≠ ""
    · rw [if_pos hne]
      unfold lookupProp
      rw [List.find?_append]
      have hnone := workoutProps_notes_chain_none detail hr_drift vo2max tss
        intensity_factor date_only day_of_week
      unfold lookupProp at hnone
      rw [Option.map_eq_none'.mp hnone, Option.none_or]
      simp [hne]
    · rw [if_neg hne, if_neg hne]
      exact workoutProps_notes_chain_none detail hr_drift vo2max tss
        intensity_factor date_only day_of_week

/-- Whether a property value carries the given string payload. -/
def propMentions (v : PropVal) (s : String) : Bool :=
  match v with
  | .number _ => false
  | .title t => t = s
  | .date t => t = s
  | .richText t => t = s
  | .select t => t = s

/-- Whether any stored page property mentions the given string. -/
def storeHasString (store : WorkoutStore) (s : String) : Bool :=
  store.any (fun p => p.props.any (fun kv => propMentions kv.2 s))

/-- A concrete activity detail used by the persistence counterexamples and
witnesses. -/
def sampleDetail : StravaDetail :=
  { id := 1
    name := "Ride"
    start_date := some "2024-05-17T08:00:00Z"
    elapsed_time := some 3600
    distance := some 1000
    total_elevation_gain := some 10
    type := some "Ride"
    average_cadence := none
    average_watts := none
    weighted_average_watts := some 210
    kilojoules := none
    calories := none
    average_heartrate := some 150
    max_heartrate := some 170
    moving_time := some 3500
    description := some "Morning ride" }

/-- Counterexample to claim C1: at a concrete activity with a non-empty
description, persisting with two different gzip+base64 attachments yields
the identical store, and no stored property carries the attachment — the
persisted record does not contain the attachment. -/
theorem save_workout_attachment_counterexample :
    save_workout [] [] 1 "2024-05-17" sampleDetail "ATTACHMENT-A" 0 0
        (some 1) (some 1)
      = save_workout [] [] 1 "2024-05-17" sampleDetail "ATTACHMENT-B" 0 0
          (some 1) (some 1)
    ∧ "ATTACHMENT-A" ≠ "ATTACHMENT-B"
    ∧ (save_workout [] [] 1 "2024-05-17" sampleDetail "ATTACHMENT-A" 0 0
        (some 1) (some 1)).map (fun r => storeHasString r.2 "ATTACHMENT-A")
      = Except.ok false :=
  ⟨rfl, by decide, by rfl⟩

/-- Lookup in a concatenation keeps the left result when the left map
already resolves the key. -/
theorem lookupProp_append_left (p q : PropMap) (k : String)
    (h : (lookupProp p k).isSome) :
    lookupProp (p ++ q) k = lookupProp p k := by
  unfold lookupProp at h ⊢
  rw [List.find?_append]
  rcases hf : List.find? (fun kv => kv.1 = k) p with _ | kv
  · rw [hf] at h
    simp at h
  · rw [hf, Option.or_some]

/-- The property bag written by `save_workout` always stores the activity
id under `"Id"`, whatever the other arguments are. -/
theorem workoutProps_id (detail : StravaDetail) (hr_drift vo2max : ℚ)
    (tss intensity_factor : Option ℚ) (date_only day_of_week : String) :
    numberOf (workoutProps detail hr_drift vo2max tss intensity_factor
      date_only day_of_week) "Id" = some ((detail.id : ℤ) : ℚ) := by
  unfold workoutProps
  dsimp only
  have hchain : lookupProp (addNumberProp (addNumberProp (addNumberProp
      (addNumberProp (addNumberProp (addNumberProp (addNumberProp
      (addNumberProp (addNumberProp (addNumberProp (addNumberProp
        [("Name", .title detail.name),
         ("Date", .date date_only),
         ("Duration [s]", .number detail.elapsed_time),
         ("Distance [m]", .number detail.distance),
         ("Elevation [m]", .number detail.total_elevation_gain),
         ("Type", .richText (typeOrGym detail.type)),
         ("Id", .number (some (detail.id : ℚ))),
         ("Day of week", .select day_of_week)]
        "Average Cadence" detail.average_cadence)
        "Average Watts" detail.average_watts)
        "Weighted Average Watts" detail.weighted_average_watts)
        "Kilojoules" detail.kilojoules)
        "Kcal" detail.calories)
        "Average Heartrate" detail.average_heartrate)
        "Max Heartrate" detail.max_heartrate)
        "HR drift [%]" (some hr_drift))
        "VO2 MAX [min]" (some vo2max))
        "TSS" tss)
        "IF" intensity_factor) "Id"
      = some (.number (some (detail.id : ℚ))) := by
    rw [lookupProp_addNumberProp_ne _ _ _ _ (by decide),
      lookupProp_addNumberProp_ne _ _ _ _ (by decide),
      lookupProp_addNumberProp_ne _ _ _ _ (by decide),
      lookupProp_addNumberProp_ne _ _ _ _ (by decide),
      lookupProp_addNumberProp_ne _ _ _ _ (by decide),
      lookupProp_addNumberProp_ne _ _ _ _ (by decide),
      lookupProp_addNumberProp_ne _ _ _ _ (by decide),
      lookupProp_addNumberProp_ne _ _ _ _ (by decide),
      lookupProp_addNumberProp_ne _ _ _ _ (by decide),
      lookupProp_addNumberProp_ne _ _ _ _ (by decide),
      lookupProp_addNumberProp_ne _ _ _ _ (by decide)]
    rfl
  rcases hdesc : detail.description with _ | desc
  · unfold numberOf
    rw [hchain]
  · dsimp only
    by_cases hne : desc ≠ ""
    · rw [if_pos hne]
      unfold numberOf
      rw [lookupProp_append_left _ _ _ (by rw [hchain]; rfl), hchain]
    · rw [if_neg hne]
      unfold numberOf
      rw [hchain]

/-- Counting store records by external id distributes over append. -/
theorem countId_append (s1 s2 : WorkoutStore) (n : ℤ) :
    countId (s1 ++ s2) n = countId s1 n + countId s2 n := by
  simp [countId, List.filter_append]

/-- A store has no record for an id exactly when the `save_workout` query
comes back empty. -/
theorem queryById_none_iff (store : WorkoutStore) (id : ℤ) :
    queryById store id = none ↔ countId store id = 0 := by
  unfold queryById countId
  rw [List.find?_eq_none, List.length_eq_zero, List.filter_eq_nil_iff]

/-- The page found by the `save_workout` query belongs to the store and
carries the queried id. -/
theorem queryById_some (store : WorkoutStore) (id : ℤ) (p : NotionPage)
    (h : queryById store id = some p) :
    p ∈ store ∧ numberOf p.props "Id" = some (id : ℚ) := by
  unfold queryById at h
  refine ⟨List.mem_of_find?_eq_some h, ?_⟩
  have := List.find?_some h
  exact of_decide_eq_true this

/-- `numberOf` ignores a right concatenation when the key resolves on the
left. -/
theorem numberOf_append_left (p q : PropMap) (k : String)
    (h : (lookupProp p k).isSome) :
    numberOf (p ++ q) k = numberOf p k := by
  unfold numberOf
  rw [lookupProp_append_left _ _ _ h]

/-- A resolved number property means the key resolves. -/
theorem lookupProp_isSome_of_numberOf (p : PropMap) (k : String) (x : ℚ)
    (h : numberOf p k = some x) : (lookupProp p k).isSome := by
  unfold numberOf at h
  rcases hl : lookupProp p k with _ | v
  · rw [hl] at h
    exact absurd h (by simp)
  · simp

/-- Per-id record count of a cons cell. -/
theorem countId_cons (p : NotionPage) (rest : WorkoutStore) (n : ℤ) :
    countId (p :: rest) n
      = (if numberOf p.props "Id" = some (n : ℚ) then 1 else 0) + countId rest n := by
  unfold countId
  rw [List.filter_cons]
  by_cases hc : numberOf p.props "Id" = some (n : ℚ)
  · simp [hc]
    omega
  · simp [hc]

/-- Updating a page whose merged properties keep the same `Id` leaves every
per-id record count unchanged. -/
theorem countId_updatePage (store : WorkoutStore) (pid : ℕ)
    (newProps : PropMap) (n : ℤ)
    (h : ∀ q ∈ store, q.pid = pid →
      numberOf (newProps ++ q.props) "Id" = numberOf q.props "Id") :
    countId (updatePage store pid newProps) n = countId store n := by
  induction store with
  | nil => rfl
  | cons p rest ih =>
      have ih' := ih (fun q hq hpid => h q (List.mem_cons_of_mem _ hq) hpid)
      unfold updatePage
      by_cases hp : p.pid = pid
      · rw [if_pos hp]
        have hid := h p (List.mem_cons_self _ _) hp
        rw [countId_cons, countId_cons]
        dsimp only
        rw [hid]
      · rw [if_neg hp]
        rw [countId_cons, countId_cons, ih']

/-- Updating a freshly appended page touches only that page when its id is
new to the store. -/
theorem updatePage_append_fresh (store : WorkoutStore) (page : NotionPage)
    (props : PropMap) (h : ∀ q ∈ store, q.pid ≠ page.pid) :
    updatePage (store ++ [page]) page.pid props
      = store ++ [{ page with props := props ++ page.props }] := by
  induction store with
  | nil =>
      rw [List.nil_append, List.nil_append]
      unfold updatePage
      rw [if_pos rfl]
  | cons p rest ih =>
      have hne := h p (List.mem_cons_self _ _)
      have ih' := ih (fun q hq => h q (List.mem_cons_of_mem _ hq))
      rw [List.cons_append]
      unfold updatePage
      rw [if_neg hne, ih']
      rfl

/-- Query on a store extended with one page, when the original store has no
match. -/
theorem queryById_append_single (store : WorkoutStore) (page : NotionPage)
    (id : ℤ) (h : queryById store id = none) :
    queryById (store ++ [page]) id
      = if numberOf page.props "Id" = some (id : ℚ) then some page else none := by
  unfold queryById at h ⊢
  rw [List.find?_append, h, Option.none_or]
  by_cases hc : numberOf page.props "Id" = some (id : ℚ)
  · simp [hc]
  · simp [hc]

/-- The empty store holds no records. -/
theorem countId_nil (n : ℤ) : countId ([] : WorkoutStore) n = 0 := rfl

/-- Claim C2: `save_workout` first queries the store for the activity's
external id and updates the found page instead of creating; only a miss
creates. Hence, per-page-id-addressable stores keep at most one record per
external id, and saving the same activity twice into a store without it
leaves exactly one record, the second call being an update of the page the
first call created. -/
theorem save_workout_upsert_unique
    (profileResults : List PropMap) (store : WorkoutStore)
    (freshPid freshPid2 : ℕ) (now1 now2 : String) (detail : StravaDetail)
    (att1 att2 : String) (hd1 hd2 v1 v2 : ℚ) (tss1 tss2 if1 if2 : Option ℚ) :
    (∀ (n : ℤ) (a : SaveAction) (s' : WorkoutStore), countId store n ≤ 1 →
      (∀ q1 ∈ store, ∀ q2 ∈ store, q1.pid = q2.pid → q1 = q2) →
      save_workout profileResults store freshPid now1 detail att1 hd1 v1
        tss1 if1 = .ok (a, s') →
      countId s' n ≤ 1)
    ∧ (countId store detail.id = 0 → (∀ q ∈ store, q.pid ≠ freshPid) →
      ∀ (a1 : SaveAction) (s1 : WorkoutStore),
        save_workout profileResults store freshPid now1 detail att1 hd1 v1
          tss1 if1 = .ok (a1, s1) →
        a1 = .created ∧ countId s1 detail.id = 1
        ∧ ∀ (a2 : SaveAction) (s2 : WorkoutStore),
            save_workout profileResults s1 freshPid2 now2 detail att2 hd2 v2
              tss2 if2 = .ok (a2, s2) →
            a2 = SaveAction.updated freshPid ∧ countId s2 detail.id = 1) := by
  constructor
  · intro n a s' hcount hinj hsave
    unfold save_workout at hsave
    dsimp only at hsave
    rcases hdow : isoWeekdayName (isoDateOnly detail.start_date now1) with _ | dow
    · rw [hdow] at hsave
      exact absurd hsave (by simp)
    · rw [hdow] at hsave
      dsimp only at hsave
      rcases hq : queryById store detail.id with _ | page
      · rw [hq] at hsave
        rw [Except.ok.injEq, Prod.mk.injEq] at hsave
        obtain ⟨-, hs⟩ := hsave
        subst hs
        rw [countId_append, countId_cons]
        have h0 : countId store detail.id = 0 := (queryById_none_iff _ _).mp hq
        by_cases hn : n = detail.id
        · subst hn
          rw [h0]
          dsimp only
          rw [workoutProps_id, if_pos rfl, countId_nil]
        · dsimp only
          rw [workoutProps_id]
          rw [if_neg (by
            intro hcast
            rw [Option.some_inj] at hcast
            exact hn (by exact_mod_cast hcast.symm))]
          simpa [countId] using hcount
      · rw [hq] at hsave
        dsimp only at hsave
        rw [Except.ok.injEq, Prod.mk.injEq] at hsave
        obtain ⟨-, hs⟩ := hsave
        subst hs
        obtain ⟨hmem, hid⟩ := queryById_some _ _ _ hq
        rw [countId_updatePage]
        · exact hcount
        · intro q hqmem hqpid
          have hq_eq : q = page := hinj q hqmem page hmem hqpid
          subst hq_eq
          rw [numberOf_append_left _ _ _
              (lookupProp_isSome_of_numberOf _ _ _ (workoutProps_id detail hd1
                v1 _ _ _ _)),
            workoutProps_id, hid]
  · intro h0 hfresh a1 s1 hsave1
    unfold save_workout at hsave1
    dsimp only at hsave1
    rcases hdow : isoWeekdayName (isoDateOnly detail.start_date now1) with _ | dow
    · rw [hdow] at hsave1
      exact absurd hsave1 (by simp)
    · rw [hdow] at hsave1
      dsimp only at hsave1
      have hqnone : queryById store detail.id = none := (queryById_none_iff _ _).mpr h0
      rw [hqnone] at hsave1
      rw [Except.ok.injEq, Prod.mk.injEq] at hsave1
      obtain ⟨ha1, hs1⟩ := hsave1
      have hcount1 : countId s1 detail.id = 1 := by
        rw [← hs1, countId_append, countId_cons, h0]
        dsimp only
        rw [workoutProps_id, if_pos rfl, countId_nil]
      refine ⟨ha1.symm, hcount1, ?_⟩
      intro a2 s2 hsave2
      unfold save_workout at hsave2
      dsimp only at hsave2
      rcases hdow2 : isoWeekdayName (isoDateOnly detail.start_date now2) with _ | dow2
      · rw [hdow2] at hsave2
        exact absurd hsave2 (by simp)
      · rw [hdow2] at hsave2
        dsimp only at hsave2
        have hquery2 : queryById s1 detail.id
            = some ⟨freshPid, workoutProps detail hd1 v1
                (resolveEstimates profileResults detail tss1 if1).1
                (resolveEstimates profileResults detail tss1 if1).2
                (isoDateOnly detail.start_date now1) dow⟩ := by
          rw [← hs1, queryById_append_single _ _ _ hqnone]
          dsimp only
          rw [workoutProps_id, if_pos rfl]
        rw [hquery2] at hsave2
        dsimp only at hsave2
        rw [Except.ok.injEq, Prod.mk.injEq] at hsave2
        obtain ⟨ha2, hs2⟩ := hsave2
        refine ⟨ha2.symm, ?_⟩
        rw [← hs2, ← hs1]
        rw [updatePage_append_fresh _ _ _ (by exact hfresh)]
        rw [countId_append, countId_cons, h0]
        dsimp only
        rw [numberOf_append_left _ _ _
            (lookupProp_isSome_of_numberOf _ _ _ (workoutProps_id detail hd2
              v2 _ _ _ _)),
          workoutProps_id, if_pos rfl, countId_nil]

/-- The page properties created by the first witness save (2024-05-17 was a
Friday). -/
def witnessProps1 : PropMap :=
  workoutProps sampleDetail 0 0 (some 135) (some 1) "2024-05-17" "Friday"

/-- The store after the first witness save. -/
def witnessStore1 : WorkoutStore := [⟨7, witnessProps1⟩]

/-- The store after saving the same activity a second time: the same single
page, updated in place. -/
def witnessStore2 : WorkoutStore := [⟨7, witnessProps1 ++ witnessProps1⟩]

/-- Witness for claim C2: two saves of the same concrete activity into an
empty store leave exactly one record. -/
theorem save_workout_upsert_unique_witness :
    countId witnessStore1 sampleDetail.id = 1
    ∧ countId witnessStore2 sampleDetail.id = 1 := by
  obtain ⟨-, h2⟩ := save_workout_upsert_unique [] [] 7 8 "2024-01-01"
    "2024-01-02" sampleDetail "A" "B" 0 0 0 0 (some 135) (some 135)
    (some 1) (some 1)
  obtain ⟨-, hcount1, hrest⟩ := h2 rfl
    (fun q hq => absurd hq (List.not_mem_nil q))
    SaveAction.created witnessStore1 (by rfl)
  obtain ⟨-, hcount2⟩ := hrest (SaveAction.updated 7) witnessStore2 (by rfl)
  exact ⟨hcount1, hcount2⟩

/-- Claim C4: both token-refresh implementations fail on a missing stored
refresh token before any POST is issued and before any cache key is
written; a non-200 token-endpoint response raises the refresh-failure
error; a 200 response whose body lacks the access token raises the
missing-access-token protocol error. -/
theorem token_refresh_failure_modes
    (redis : List (String × String)) (tokS : ℕ → StravaTokenResponse)
    (tokW : ℕ → WithingsTokenResponse) :
    (pyTruthy (redisGet (initState redis) "strava_refresh_token") = false →
      strava_refresh_access_token tokS (initState redis)
        = (.error (.auth "No Strava refresh token found in Redis"),
           ⟨redis, 1, 0, 0, []⟩))
    ∧ (pyTruthy (redisGet (initState redis) "strava_refresh_token") = true →
       (tokS 0).status ≠ 200 →
       strava_refresh_access_token tokS (initState redis)
         = (.error (.auth "Failed to refresh Strava access token"),
            ⟨redis, 1, 1, 0, []⟩))
    ∧ (pyTruthy (redisGet (initState redis) "strava_refresh_token") = true →
       (tokS 0).status = 200 →
       pyTruthy (tokS 0).access_token = false →
       strava_refresh_access_token tokS (initState redis)
         = (.error (.auth "Strava token refresh response missing access token"),
            ⟨redis, 1, 1, 0, []⟩))
    ∧ (pyTruthy (redisGet (initState redis) "withings_refresh_token") = false →
      withings_refresh_access_token tokW (initState redis)
        = (.error (.valueError "No Withings refresh token found in Redis"),
           ⟨redis, 1, 0, 0, []⟩))
    ∧ (pyTruthy (redisGet (initState redis) "withings_refresh_token") = true →
       (tokW 0).status ≠ 200 →
       withings_refresh_access_token tokW (initState redis)
         = (.error (.runtimeError "Failed to refresh Withings access token"),
            ⟨redis, 1, 1, 0, []⟩))
    ∧ (pyTruthy (redisGet (initState redis) "withings_refresh_token") = true →
       (tokW 0).status = 200 → (tokW 0).jstatus = some 0 →
       pyTruthy (tokW 0).access_token = false →
       withings_refresh_access_token tokW (initState redis)
         = (.error (.runtimeError "Withings refresh response missing access token"),
            ⟨redis, 1, 1, 0, []⟩)) := by
  refine ⟨?_, ?_, ?_, ?_, ?_, ?_⟩
  · intro h
    unfold strava_refresh_access_token
    simp [initState, redisGet] at h ⊢
    simp [h]
  · intro h hstatus
    unfold strava_refresh_access_token
    simp only [initState] at h ⊢
    rw [if_neg (by simp [redisGet] at h ⊢; simp [h])]
    rw [if_pos hstatus]
  · intro h hstatus hacc
    unfold strava_refresh_access_token
    simp only [initState] at h ⊢
    rw [if_neg (by simp [redisGet] at h ⊢; simp [h])]
    rw [if_neg (by simp [hstatus])]
    rw [if_pos (by simp [hacc])]
  · intro h
    unfold withings_refresh_access_token
    simp [initState, redisGet] at h ⊢
    simp [h]
  · intro h hstatus
    unfold withings_refresh_access_token
    simp only [initState] at h ⊢
    rw [if_neg (by simp [redisGet] at h ⊢; simp [h])]
    rw [if_pos hstatus]
  · intro h hstatus hjs hacc
    unfold withings_refresh_access_token
    simp only [initState] at h ⊢
    rw [if_neg (by simp [redisGet] at h ⊢; simp [h])]
    rw [if_neg (by simp [hstatus])]
    rw [if_neg (by simp [hjs])]
    rw [if_pos (by simp [hacc])]

/-- Witness for claim C4: the three failure modes of each client at
concrete cache states and token-endpoint responses. -/
theorem token_refresh_failure_modes_witness :
    strava_refresh_access_token (fun _ => ⟨500, none, none, none⟩)
        (initState [])
      = (.error (.auth "No Strava refresh token found in Redis"),
         ⟨[], 1, 0, 0, []⟩)
    ∧ strava_refresh_access_token (fun _ => ⟨500, none, none, none⟩)
        (initState [("strava_refresh_token", "rt")])
      = (.error (.auth "Failed to refresh Strava access token"),
         ⟨[("strava_refresh_token", "rt")], 1, 1, 0, []⟩)
    ∧ strava_refresh_access_token (fun _ => ⟨200, none, none, none⟩)
        (initState [("strava_refresh_token", "rt")])
      = (.error (.auth "Strava token refresh response missing access token"),
         ⟨[("strava_refresh_token", "rt")], 1, 1, 0, []⟩)
    ∧ withings_refresh_access_token (fun _ => ⟨500, some 0, none, none, none⟩)
        (initState [])
      = (.error (.valueError "No Withings refresh token found in Redis"),
         ⟨[], 1, 0, 0, []⟩)
    ∧ withings_refresh_access_token (fun _ => ⟨500, some 0, none, none, none⟩)
        (initState [("withings_refresh_token", "rt")])
      = (.error (.runtimeError "Failed to refresh Withings access token"),
         ⟨[("withings_refresh_token", "rt")], 1, 1, 0, []⟩)
    ∧ withings_refresh_access_token (fun _ => ⟨200, some 0, none, none, none⟩)
        (initState [("withings_refresh_token", "rt")])
      = (.error (.runtimeError "Withings refresh response missing access token"),
         ⟨[("withings_refresh_token", "rt")], 1, 1, 0, []⟩) :=
  ⟨(token_refresh_failure_modes [] (fun _ => ⟨500, none, none, none⟩)
      (fun _ => ⟨500, some 0, none, none, none⟩)).1 (by rfl),
   (token_refresh_failure_modes [("strava_refresh_token", "rt")]
      (fun _ => ⟨500, none, none, none⟩)
      (fun _ => ⟨500, some 0, none, none, none⟩)).2.1 (by rfl) (by decide),
   (token_refresh_failure_modes [("strava_refresh_token", "rt")]
      (fun _ => ⟨200, none, none, none⟩)
      (fun _ => ⟨500, some 0, none, none, none⟩)).2.2.1 (by rfl) (by rfl) (by rfl),
   (token_refresh_failure_modes [] (fun _ => ⟨500, none, none, none⟩)
      (fun _ => ⟨500, some 0, none, none, none⟩)).2.2.2.1 (by rfl),
   (token_refresh_failure_modes [("withings_refresh_token", "rt")]
      (fun _ => ⟨500, none, none, none⟩)
      (fun _ => ⟨500, some 0, none, none, none⟩)).2.2.2.2.1 (by rfl) (by decide),
   (token_refresh_failure_modes [("withings_refresh_token", "rt")]
      (fun _ => ⟨500, none, none, none⟩)
      (fun _ => ⟨200, some 0, none, none, none⟩)).2.2.2.2.2 (by rfl) (by rfl)
      (by rfl) (by rfl)⟩

/-- Claim C3 as amended: with a cached access token, a non-401 first
response triggers no refresh and no retry for either client; a 401 first
response triggers exactly one refresh and exactly one retry of the same
request with the new token. A second 401 surfaces for the Strava client as
the HTTP-status error of `raise_for_status`; the Withings client never
re-reads the HTTP status after the retry — only the JSON body's `status`
field decides, so a second 401 whose body parses with status 0 is treated
as success. -/
theorem clients_single_refresh_on_401
    (redis : List (String × String))
    (tokS : ℕ → StravaTokenResponse) (netS : ℕ → String → ActivityResponse)
    (tokW : ℕ → WithingsTokenResponse) (netW : ℕ → String → WithingsMeasResponse)
    (t t2 tw tw2 : String) :
    (redisGet (initState redis) "strava_access_token" = some t → t ≠ "" →
      (netS 0 t).status ≠ 401 →
      strava_get_activity tokS netS (initState redis)
        = (stravaRaiseForStatus (netS 0 t), ⟨redis, 0, 0, 1, []⟩))
    ∧ (redisGet (initState redis) "strava_access_token" = some t → t ≠ "" →
      (netS 0 t).status = 401 →
      pyTruthy (redisGet (initState redis) "strava_refresh_token") = true →
      tokS 0 = ⟨200, some t2, none, none⟩ → t2 ≠ "" →
      (strava_get_activity tokS netS (initState redis)).2.refreshCalls = 1
      ∧ (strava_get_activity tokS netS (initState redis)).2.getCalls = 2
      ∧ (strava_get_activity tokS netS (initState redis)).1
          = stravaRaiseForStatus (netS 1 t2)
      ∧ ((netS 1 t2).status = 401 →
          (strava_get_activity tokS netS (initState redis)).1
            = .error (.httpStatus 401)))
    ∧ (redisGet (initState redis) "withings_access_token" = some tw → tw ≠ "" →
      (netW 0 tw).status ≠ 401 →
      withings_fetch_measurements tokW netW (initState redis)
        = ((if (netW 0 tw).jstatus ≠ some 0
            then .error (.runtimeError "Withings API error")
            else .ok ((netW 0 tw).measuregrps.map parseMeasureGroup)),
           ⟨redis, 0, 0, 1, []⟩))
    ∧ (redisGet (initState redis) "withings_access_token" = some tw → tw ≠ "" →
      (netW 0 tw).status = 401 →
      pyTruthy (redisGet (initState redis) "withings_refresh_token") = true →
      tokW 0 = ⟨200, some 0, some tw2, none, none⟩ → tw2 ≠ "" →
      (withings_fetch_measurements tokW netW (initState redis)).2.refreshCalls = 1
      ∧ (withings_fetch_measurements tokW netW (initState redis)).2.getCalls = 2
      ∧ (withings_fetch_measurements tokW netW (initState redis)).1
          = (if (netW 1 tw2).jstatus ≠ some 0
             then .error (.runtimeError "Withings API error")
             else .ok ((netW 1 tw2).measuregrps.map parseMeasureGroup))) := by
  refine ⟨?_, ?_, ?_, ?_⟩
  · intro hcache ht hstatus
    unfold strava_get_activity strava_ensure_access_token
    rw [hcache]
    rw [if_pos (by simp [pyTruthy, ht])]
    dsimp only [Option.getD_some, initState]
    rw [if_neg hstatus]
  · intro hcache ht hstatus hrt htok ht2
    unfold strava_get_activity strava_ensure_access_token
    rw [hcache]
    rw [if_pos (by simp [pyTruthy, ht])]
    dsimp only [Option.getD_some, initState]
    rw [if_pos hstatus]
    unfold strava_refresh_access_token
    dsimp only
    rw [if_neg (by simp only [redisGet, initState] at hrt ⊢; simp [hrt])]
    rw [htok]
    dsimp only
    rw [if_neg (by decide)]
    rw [if_neg (by simp [pyTruthy, ht2])]
    dsimp only [Option.getD_some]
    refine ⟨rfl, rfl, rfl, fun h401 => ?_⟩
    show stravaRaiseForStatus (netS 1 t2) = Except.error (StravaErr.httpStatus 401)
    unfold stravaRaiseForStatus
    rw [h401, if_pos (by norm_num)]
  · intro hcache ht hstatus
    unfold withings_fetch_measurements
    rw [hcache]
    dsimp only [initState]
    rw [if_pos (show pyTruthy (some tw) = true by simp [pyTruthy, ht])]
    dsimp only [Option.getD_some]
    rw [if_neg hstatus]
    dsimp only
    split_ifs with h1 <;> rfl
  · intro hcache ht hstatus hrt htok ht2
    unfold withings_fetch_measurements
    rw [hcache]
    dsimp only [initState]
    rw [if_pos (show pyTruthy (some tw) = true by simp [pyTruthy, ht])]
    dsimp only [Option.getD_some]
    rw [if_pos hstatus]
    unfold withings_refresh_access_token
    dsimp only
    rw [if_neg (by simp only [redisGet, initState] at hrt ⊢; simp [hrt])]
    rw [htok]
    dsimp only
    rw [if_neg (by decide)]
    rw [if_neg (by decide)]
    rw [if_neg (by simp [pyTruthy, ht2])]
    dsimp only [Option.getD_some, redisSet]
    simp only [Nat.zero_add]
    split_ifs with h1 <;> exact ⟨rfl, rfl, rfl⟩

/-- Cache state for the Withings counterexample: cached tokens present. -/
def ceRedis : List (String × String) :=
  [("withings_access_token", "tokA"), ("withings_refresh_token", "rt")]

/-- Token endpoint for the counterexample: refresh succeeds with `tokB`. -/
def ceTokW : ℕ → WithingsTokenResponse :=
  fun _ => ⟨200, some 0, some "tokB", none, none⟩

/-- Network for the counterexample: every measurement GET comes back HTTP
401, with a JSON body reporting status 0 and no measure groups. -/
def ceNetW : ℕ → String → WithingsMeasResponse :=
  fun _ _ => ⟨401, some 0, []⟩

/-- Counterexample to claim C3: the Withings client retries after the first
401 (one refresh, two GETs), the retried response is again HTTP 401, yet no
upstream-auth failure propagates — the call succeeds because the body's
status field is 0. -/
theorem withings_second_401_not_fatal_counterexample :
    (withings_fetch_measurements ceTokW ceNetW (initState ceRedis)).1
      = .ok []
    ∧ (withings_fetch_measurements ceTokW ceNetW (initState ceRedis)).2.refreshCalls = 1
    ∧ (withings_fetch_measurements ceTokW ceNetW (initState ceRedis)).2.getCalls = 2
    ∧ (ceNetW 1 "tokB").status = 401 :=
  ⟨rfl, rfl, rfl, rfl⟩

/-- Cache state for the retry witness: all four tokens cached. -/
def wRedis : List (String × String) :=
  [("strava_access_token", "t0"), ("strava_refresh_token", "rt"),
   ("withings_access_token", "w0"), ("withings_refresh_token", "wr")]

/-- Strava token endpoint for the witness: refresh yields `t1`. -/
def wTokS : ℕ → StravaTokenResponse := fun _ => ⟨200, some "t1", none, none⟩

/-- Strava activity endpoint for the witness: 401 for the stale token,
200 for the refreshed one. -/
def wNetS : ℕ → String → ActivityResponse :=
  fun _ tok => if tok = "t1" then ⟨200, "payload"⟩ else ⟨401, "denied"⟩

/-- Withings token endpoint for the witness: refresh yields `w1`. -/
def wTokW : ℕ → WithingsTokenResponse :=
  fun _ => ⟨200, some 0, some "w1", none, none⟩

/-- Withings measurement endpoint for the witness: 401 for the stale token,
success for the refreshed one. -/
def wNetW : ℕ → String → WithingsMeasResponse :=
  fun _ tok => if tok = "w1" then ⟨200, some 0, []⟩ else ⟨401, some 401, []⟩

/-- Witness for the amended claim C3 at a concrete environment where the
first GET of each client is rejected with 401 and the refreshed token is
accepted. -/
theorem clients_single_refresh_on_401_witness :
    (strava_get_activity wTokS wNetS (initState wRedis)).2.refreshCalls = 1
    ∧ (strava_get_activity wTokS wNetS (initState wRedis)).2.getCalls = 2
    ∧ (strava_get_activity wTokS wNetS (initState wRedis)).1
        = stravaRaiseForStatus (wNetS 1 "t1")
    ∧ (withings_fetch_measurements wTokW wNetW (initState wRedis)).2.refreshCalls = 1
    ∧ (withings_fetch_measurements wTokW wNetW (initState wRedis)).2.getCalls = 2
    ∧ (withings_fetch_measurements wTokW wNetW (initState wRedis)).1
        = (if (wNetW 1 "w1").jstatus ≠ some 0
           then .error (.runtimeError "Withings API error")
           else .ok ((wNetW 1 "w1").measuregrps.map parseMeasureGroup)) := by
  obtain ⟨-, hS, -, hW⟩ := clients_single_refresh_on_401 wRedis wTokS wNetS
    wTokW wNetW "t0" "t1" "w0" "w1"
  obtain ⟨h1, h2, h3, -⟩ := hS (by rfl) (by decide) (by rfl) (by rfl)
    (by rfl) (by decide)
  obtain ⟨h4, h5, h6⟩ := hW (by rfl) (by decide) (by rfl) (by rfl)
    (by rfl) (by decide)
  exact ⟨h1, h2, h3, h4, h5, h6⟩
